import Mathlib

/-! PostHog OpenFeature provider: embedding of `posthog.go`.

The provider in `posthog.go` adapts the OpenFeature evaluation interface to the
PostHog client.  The development below embeds

* the dynamically typed values that travel through the interface (`any`),
* the result and error records of the OpenFeature SDK that the provider fills,
* the PostHog client as a state-passing collaborator,
* `extractDistinctID`, `fromPostHogError` and the five evaluation methods,

and proves properties of the decision table of `BooleanEvaluation` and of the
stub evaluations.

Conventions.  A Go map is a list of entries in the order in which `range`
visits them; a well-formed map has pairwise different keys.  A nil map or nil
pointer is `none`.  A non-nil `error` is represented by the text that its
`Error()` method returns.  The `context.Context` argument of the evaluation
methods is never read by the provider and is left out.  The call to the client
is the only effect: it threads a client state `σ`.  A second embedding, in the
namespace `Panics`, gives up the assumptions that the client is not nil, that
its call returns and that `Error()` returns.
-/

namespace Posthog

/-! ## Values and library records -/

/-- Dynamically typed Go value, the contents of an `any` (`interface{}`). -/
inductive GoValue where
  | nil
  | bool (b : Bool)
  | str (s : String)
  | int (i : Int)
  | float (x : Float)
  | slice (xs : List GoValue)
  | map (entries : List (String × GoValue))

/-- Go map from string keys to dynamically typed values, as the list of its
entries in iteration order. -/
abbrev GoMap := List (String × GoValue)

/-- Non-nil Go `error`, represented by the text returned by `Error()`. -/
structure GoError where
  Error : String
deriving DecidableEq

/-- OpenFeature `ErrorCode` (a string type). -/
abbrev ErrorCode := String

/-- OpenFeature `TypeMismatchCode`. -/
def TypeMismatchCode : ErrorCode := "TYPE_MISMATCH"

/-- OpenFeature `TargetingKeyMissingCode`. -/
def TargetingKeyMissingCode : ErrorCode := "TARGETING_KEY_MISSING"

/-- OpenFeature `GeneralCode`. -/
def GeneralCode : ErrorCode := "GENERAL"

/-- OpenFeature `ResolutionError`: an error code and a message.  The zero value
(both fields empty) is the "no error" value that the tests compare with
`openfeature.ResolutionError{}`. -/
structure ResolutionError where
  code : ErrorCode := ""
  message : String := ""
deriving DecidableEq

/-- OpenFeature `NewTypeMismatchResolutionError`. -/
def NewTypeMismatchResolutionError (msg : String) : ResolutionError :=
  { code := TypeMismatchCode, message := msg }

/-- OpenFeature `NewTargetingKeyMissingResolutionError`. -/
def NewTargetingKeyMissingResolutionError (msg : String) : ResolutionError :=
  { code := TargetingKeyMissingCode, message := msg }

/-- OpenFeature `NewGeneralResolutionError`. -/
def NewGeneralResolutionError (msg : String) : ResolutionError :=
  { code := GeneralCode, message := msg }

/-- OpenFeature `Reason` (a string type). -/
abbrev Reason := String

/-- OpenFeature `DefaultReason`. -/
def DefaultReason : Reason := "DEFAULT"

/-- OpenFeature `TargetingMatchReason`. -/
def TargetingMatchReason : Reason := "TARGETING_MATCH"

/-- OpenFeature `UnknownReason`. -/
def UnknownReason : Reason := "UNKNOWN"

/-- OpenFeature `ErrorReason`. -/
def ErrorReason : Reason := "ERROR"

/-- OpenFeature `ProviderResolutionDetail`.  Fields that a composite literal
does not mention keep their zero value. -/
structure ProviderResolutionDetail where
  ResolutionError : ResolutionError := {}
  Reason : Reason := ""
  Variant : String := ""
  FlagMetadata : Option GoMap := none

/-- OpenFeature `BoolResolutionDetail`: a value and the embedded provider detail. -/
structure BoolResolutionDetail extends ProviderResolutionDetail where
  Value : Bool

/-- OpenFeature `StringResolutionDetail`. -/
structure StringResolutionDetail extends ProviderResolutionDetail where
  Value : String

/-- OpenFeature `FloatResolutionDetail`. -/
structure FloatResolutionDetail extends ProviderResolutionDetail where
  Value : Float

/-- OpenFeature `IntResolutionDetail`; the value is an `int64`, and the provider
only hands it back, so no arithmetic is involved. -/
structure IntResolutionDetail extends ProviderResolutionDetail where
  Value : Int

/-- OpenFeature `InterfaceResolutionDetail`. -/
structure InterfaceResolutionDetail extends ProviderResolutionDetail where
  Value : GoValue

/-- OpenFeature `FlattenedContext`, a `map[string]interface{}`. -/
abbrev FlattenedContext := GoMap

/-- OpenFeature `TargetingKey`. -/
def TargetingKey : String := "targetingKey"

/-- OpenFeature `Metadata`. -/
structure Metadata where
  Name : String
deriving DecidableEq

/-- OpenFeature `Hook`; the provider never builds one. -/
structure Hook where
  id : Nat

/-! ## The PostHog client -/

/-- PostHog `FeatureFlagPayload`.  Maps and the pointer field are `none` when nil. -/
structure FeatureFlagPayload where
  Key : String := ""
  DistinctId : String := ""
  Groups : Option GoMap := none
  PersonProperties : Option GoMap := none
  GroupProperties : Option (List (String × GoMap)) := none
  OnlyEvaluateLocally : Bool := false
  SendFeatureFlagEvents : Option Bool := none

/-- The part of the `posthog.Client` interface that the provider uses.  A call
reads and updates the state `σ` of the client and of the service behind it, and
returns a dynamically typed response together with an optional error. -/
structure Client (σ : Type) where
  IsFeatureEnabled : FeatureFlagPayload → σ → (GoValue × Option GoError) × σ

/-- Client that answers every call with the same response and keeps no state,
like a gomock expectation with a fixed `Return`. -/
def stubClient (resp : GoValue) (err : Option GoError) : Client Unit where
  IsFeatureEnabled := fun _ st => ((resp, err), st)

/-- Client that forwards every call to `c` and appends the payload it received
to a call log kept next to the state of `c`. -/
def recordingClient {σ : Type} (c : Client σ) : Client (σ × List FeatureFlagPayload) where
  IsFeatureEnabled := fun payload st =>
    ((c.IsFeatureEnabled payload st.1).1,
     ((c.IsFeatureEnabled payload st.1).2, st.2 ++ [payload]))

/-- Client that answers each call with the next outcome of a script held in its
state, like a sequence of gomock expectations; once the script is exhausted it
answers `(nil, nil)`. -/
def scriptedClient : Client (List (GoValue × Option GoError)) where
  IsFeatureEnabled := fun _ st =>
    match st with
    | [] => ((GoValue.nil, none), [])
    | outcome :: rest => (outcome, rest)

/-! ## The provider (`posthog.go`) -/

/-- Constant `DistinctIdKey`. -/
def DistinctIdKey : String := TargetingKey

/-- Type `Provider`. -/
structure Provider (σ : Type) where
  client : Client σ

/-- Function `New`. -/
def New {σ : Type} (client : Client σ) : Provider σ :=
  { client := client }

/-- Method `Provider.Metadata`. -/
def Provider.Metadata {σ : Type} (_p : Provider σ) : Metadata :=
  { Name := "PostHog" }

/-- Method `Provider.Hooks`: the nil slice. -/
def Provider.Hooks {σ : Type} (_p : Provider σ) : Option (List Hook) :=
  none

/-- Function `extractDistinctID`: the `range` loop over the context, entry by
entry in iteration order; the fall-through after the loop is the empty case. -/
def extractDistinctID : FlattenedContext → String × Option ProviderResolutionDetail
  | [] =>
    ("", some
      { ResolutionError := NewTargetingKeyMissingResolutionError "no targetingKey/distinctId",
        Reason := ErrorReason })
  | (key, val) :: rest =>
    if key = DistinctIdKey then
      match val with
      | GoValue.str v => (v, none)
      | _ =>
        ("", some
          { ResolutionError := NewTargetingKeyMissingResolutionError
              "value of targetingKey/distinctId cannnot be converted to string",
            Reason := ErrorReason })
    else extractDistinctID rest

/-- Function `fromPostHogError`. -/
def fromPostHogError (err : GoError) : ProviderResolutionDetail :=
  { ResolutionError := NewGeneralResolutionError ("posthog client error: " ++ err.Error),
    Reason := ErrorReason }

/-- Method `Provider.BooleanEvaluation`.  `fmtV` is the rendering of a value by
the `%v` verb of `fmt.Sprintf`, which belongs to the Go standard library. -/
def Provider.BooleanEvaluation {σ : Type} (fmtV : GoValue → String) (p : Provider σ)
    (flag : String) (defaultValue : Bool) (evalCtx : FlattenedContext) (st : σ) :
    BoolResolutionDetail × σ :=
  match extractDistinctID evalCtx with
  | (_, some resDetails) =>
    ({ toProviderResolutionDetail := resDetails, Value := defaultValue }, st)
  | (distinctID, none) =>
    match p.client.IsFeatureEnabled { Key := flag, DistinctId := distinctID } st with
    | ((_, some err), st1) =>
      ({ toProviderResolutionDetail := fromPostHogError err, Value := defaultValue }, st1)
    | ((resp, none), st1) =>
      match resp with
      | GoValue.bool respBool =>
        ({ Value := respBool, Reason := TargetingMatchReason }, st1)
      | _ =>
        ({ Value := defaultValue,
           ResolutionError := NewTypeMismatchResolutionError
             ("unable to convert response to boolean: " ++ fmtV resp),
           Reason := ErrorReason }, st1)

/-- Method `Provider.StringEvaluation`. -/
def Provider.StringEvaluation {σ : Type} (_p : Provider σ) (_flag : String)
    (defaultValue : String) (_evalCtx : FlattenedContext) : StringResolutionDetail :=
  { Value := defaultValue,
    Reason := DefaultReason,
    ResolutionError := NewGeneralResolutionError "string evaluation not implemented" }

/-- Method `Provider.FloatEvaluation`. -/
def Provider.FloatEvaluation {σ : Type} (_p : Provider σ) (_flag : String)
    (defaultValue : Float) (_evalCtx : FlattenedContext) : FloatResolutionDetail :=
  { Value := defaultValue,
    Reason := DefaultReason,
    ResolutionError := NewGeneralResolutionError "float evaluation not implemented" }

/-- Method `Provider.IntEvaluation`. -/
def Provider.IntEvaluation {σ : Type} (_p : Provider σ) (_flag : String)
    (defaultValue : Int) (_evalCtx : FlattenedContext) : IntResolutionDetail :=
  { Value := defaultValue,
    Reason := DefaultReason,
    ResolutionError := NewGeneralResolutionError "int evaluation not implemented" }

/-- Method `Provider.ObjectEvaluation`. -/
def Provider.ObjectEvaluation {σ : Type} (_p : Provider σ) (_flag : String)
    (defaultValue : GoValue) (_evalCtx : FlattenedContext) : InterfaceResolutionDetail :=
  { Value := defaultValue,
    Reason := DefaultReason,
    ResolutionError := NewGeneralResolutionError "object evaluation not implemented" }

/-- The context of the tests: `map[string]any{DistinctIdKey: "my_distinct_id"}`. -/
def testEvalCtx : FlattenedContext := [(DistinctIdKey, GoValue.str "my_distinct_id")]

/-- Go builtin `len` on a slice; the nil slice has length 0. -/
def sliceLen {α : Type} : Option (List α) → Nat
  | none => 0
  | some xs => xs.length

/-! ## The provider with panics made visible

The definitions above take the client as a value whose call returns and an
error as the text of `Error()`.  The definitions of this section embed the same
source lines once more with the three run-time panics that can occur inside
`BooleanEvaluation` made explicit: the `client` field may hold the nil interface
value, the call of the client may panic, and `Error()` may panic.  The provider
has no `recover`, so each of them ends the evaluation; the outcome `none` stands
for a panic that reaches the caller. -/

namespace Panics

/-- Go `error` interface value (non-nil): `Error()` returns a text, or panics
(`none`), as it does for a nil pointer stored in the interface. -/
structure ErrorValue where
  Error : Option String

/-- Non-nil `posthog.Client` interface value: the call returns a response, an
optional error and the next client state, or panics (`none`). -/
structure Client (σ : Type) where
  IsFeatureEnabled : FeatureFlagPayload → σ → Option ((GoValue × Option ErrorValue) × σ)

/-- Type `Provider`; the field holds an interface value, `none` when it is nil. -/
structure Provider (σ : Type) where
  client : Option (Client σ)

/-- Function `New`; it stores the client without testing it for nil. -/
def New {σ : Type} (client : Option (Client σ)) : Provider σ :=
  { client := client }

/-- Function `fromPostHogError`; it calls `err.Error()` itself, so a panic of
that method is not caught by `fmt.Sprintf`. -/
def fromPostHogError (err : ErrorValue) : Option ProviderResolutionDetail :=
  match err.Error with
  | none => none
  | some text =>
    some { ResolutionError := NewGeneralResolutionError ("posthog client error: " ++ text),
           Reason := ErrorReason }

/-- Method `Provider.BooleanEvaluation`, with `none` for a panic.  The rendering
`fmtV` of `%v` is total: `fmt` recovers from panics of the methods it calls. -/
def Provider.BooleanEvaluation {σ : Type} (fmtV : GoValue → String) (p : Provider σ)
    (flag : String) (defaultValue : Bool) (evalCtx : FlattenedContext) (st : σ) :
    Option (BoolResolutionDetail × σ) :=
  match extractDistinctID evalCtx with
  | (_, some resDetails) =>
    some ({ toProviderResolutionDetail := resDetails, Value := defaultValue }, st)
  | (distinctID, none) =>
    match p.client with
    | none => none
    | some client =>
      match client.IsFeatureEnabled { Key := flag, DistinctId := distinctID } st with
      | none => none
      | some ((_, some err), st1) =>
        match fromPostHogError err with
        | none => none
        | some det => some ({ toProviderResolutionDetail := det, Value := defaultValue }, st1)
      | some ((resp, none), st1) =>
        match resp with
        | GoValue.bool respBool =>
          some ({ Value := respBool, Reason := TargetingMatchReason }, st1)
        | _ =>
          some ({ Value := defaultValue,
                  ResolutionError := NewTypeMismatchResolutionError
                    ("unable to convert response to boolean: " ++ fmtV resp),
                  Reason := ErrorReason }, st1)

/-- A client whose call returns and whose errors have a text, seen as a client
that may panic but never does. -/
def ofClient {σ : Type} (c : Posthog.Client σ) : Client σ where
  IsFeatureEnabled := fun payload st =>
    some (((c.IsFeatureEnabled payload st).1.1,
           (c.IsFeatureEnabled payload st).1.2.map (fun e => { Error := some e.Error })),
          (c.IsFeatureEnabled payload st).2)

/-- Client that answers every call with the same response and error and keeps
no state. -/
def stubClient (resp : GoValue) (err : Option ErrorValue) : Client Unit where
  IsFeatureEnabled := fun _ st => some ((resp, err), st)

end Panics

/-! ## Identity extraction -/

/-- A context without an entry under the identity key yields the
"no targetingKey/distinctId" detail. -/
theorem extractDistinctID_absent (evalCtx : FlattenedContext)
    (h : ∀ e ∈ evalCtx, e.1 ≠ DistinctIdKey) :
    extractDistinctID evalCtx =
      ("", some
        { ResolutionError := NewTargetingKeyMissingResolutionError "no targetingKey/distinctId",
          Reason := ErrorReason }) := by
  induction evalCtx with
  | nil => rfl
  | cons e rest ih =>
    obtain ⟨key, val⟩ := e
    have hk : key ≠ DistinctIdKey := h (key, val) (List.mem_cons_self _ _)
    have hr : ∀ e ∈ rest, e.1 ≠ DistinctIdKey := fun e he => h e (List.mem_cons_of_mem _ he)
    simp [extractDistinctID, hk, ih hr]

/-- In a context with pairwise different keys, an entry that maps the identity
key to the string `s` makes the extraction return `s` and no detail. -/
theorem extractDistinctID_string (evalCtx : FlattenedContext) (s : String)
    (hk : (evalCtx.map Prod.fst).Nodup) (hs : (DistinctIdKey, GoValue.str s) ∈ evalCtx) :
    extractDistinctID evalCtx = (s, none) := by
  induction evalCtx with
  | nil => simp at hs
  | cons e rest ih =>
    obtain ⟨key, val⟩ := e
    simp only [List.map_cons, List.nodup_cons] at hk
    rcases List.mem_cons.mp hs with heq | hmem
    · cases heq
      simp [extractDistinctID]
    · have hne : key ≠ DistinctIdKey := by
        intro hkey
        apply hk.1
        rw [hkey]
        exact List.mem_map_of_mem Prod.fst hmem
      simp [extractDistinctID, hne, ih hk.2 hmem]

/-- In a context with pairwise different keys, an entry that maps the identity
key to a value that is not a string yields the "cannnot be converted" detail. -/
theorem extractDistinctID_not_string (evalCtx : FlattenedContext) (v : GoValue)
    (hk : (evalCtx.map Prod.fst).Nodup) (hv : (DistinctIdKey, v) ∈ evalCtx)
    (hns : ∀ s, v ≠ GoValue.str s) :
    extractDistinctID evalCtx =
      ("", some
        { ResolutionError := NewTargetingKeyMissingResolutionError
            "value of targetingKey/distinctId cannnot be converted to string",
          Reason := ErrorReason }) := by
  induction evalCtx with
  | nil => simp at hv
  | cons e rest ih =>
    obtain ⟨key, val⟩ := e
    simp only [List.map_cons, List.nodup_cons] at hk
    rcases List.mem_cons.mp hv with heq | hmem
    · cases heq
      cases v with
      | str s => exact absurd rfl (hns s)
      | _ => simp [extractDistinctID]
    · have hne : key ≠ DistinctIdKey := by
        intro hkey
        apply hk.1
        rw [hkey]
        exact List.mem_map_of_mem Prod.fst hmem
      simp [extractDistinctID, hne, ih hk.2 hmem]

/-- Every detail produced by `extractDistinctID` has reason `ErrorReason` and a
targeting-key-missing error. -/
theorem extractDistinctID_detail (evalCtx : FlattenedContext) (x : String)
    (det : ProviderResolutionDetail) (h : extractDistinctID evalCtx = (x, some det)) :
    det.Reason = ErrorReason ∧ det.ResolutionError.code = TargetingKeyMissingCode := by
  induction evalCtx with
  | nil =>
    simp only [extractDistinctID, Prod.mk.injEq, Option.some.injEq] at h
    rw [← h.2]
    exact ⟨rfl, rfl⟩
  | cons e rest ih =>
    obtain ⟨key, val⟩ := e
    by_cases hkey : key = DistinctIdKey
    · cases val <;>
        simp only [extractDistinctID, hkey, if_true, Prod.mk.injEq, Option.some.injEq,
          reduceCtorEq, and_false] at h <;>
        (rw [← h.2]; exact ⟨rfl, rfl⟩)
    · simp only [extractDistinctID, hkey, if_false] at h
      exact ih h

/-! ## The decision table of `BooleanEvaluation` -/

section DecisionTable

variable {σ : Type} (fmtV : GoValue → String) (p : Provider σ) (flag : String)
  (defaultValue : Bool) (evalCtx : FlattenedContext) (st : σ)

/-- Row 1: identity extraction failed; the client is not consulted. -/
theorem BooleanEvaluation_of_detail (x : String) (det : ProviderResolutionDetail)
    (h : extractDistinctID evalCtx = (x, some det)) :
    p.BooleanEvaluation fmtV flag defaultValue evalCtx st =
      ({ toProviderResolutionDetail := det, Value := defaultValue }, st) := by
  simp [Provider.BooleanEvaluation, h]

/-- Row 2: the client call returned an error. -/
theorem BooleanEvaluation_of_error (s : String) (resp : GoValue) (err : GoError) (st1 : σ)
    (h : extractDistinctID evalCtx = (s, none))
    (hc : p.client.IsFeatureEnabled { Key := flag, DistinctId := s } st
      = ((resp, some err), st1)) :
    p.BooleanEvaluation fmtV flag defaultValue evalCtx st =
      ({ toProviderResolutionDetail := fromPostHogError err, Value := defaultValue }, st1) := by
  simp [Provider.BooleanEvaluation, h, hc]

/-- Row 3: the client call returned a boolean and no error. -/
theorem BooleanEvaluation_of_bool (s : String) (b : Bool) (st1 : σ)
    (h : extractDistinctID evalCtx = (s, none))
    (hc : p.client.IsFeatureEnabled { Key := flag, DistinctId := s } st
      = ((GoValue.bool b, none), st1)) :
    p.BooleanEvaluation fmtV flag defaultValue evalCtx st =
      ({ Value := b, Reason := TargetingMatchReason }, st1) := by
  simp [Provider.BooleanEvaluation, h, hc]

/-- Row 4: the client call returned no error and a value that is not a boolean. -/
theorem BooleanEvaluation_of_other (s : String) (resp : GoValue) (st1 : σ)
    (h : extractDistinctID evalCtx = (s, none))
    (hc : p.client.IsFeatureEnabled { Key := flag, DistinctId := s } st
      = ((resp, none), st1))
    (hnb : ∀ b, resp ≠ GoValue.bool b) :
    p.BooleanEvaluation fmtV flag defaultValue evalCtx st =
      ({ Value := defaultValue,
         ResolutionError := NewTypeMismatchResolutionError
           ("unable to convert response to boolean: " ++ fmtV resp),
         Reason := ErrorReason }, st1) := by
  cases resp with
  | bool b => exact absurd rfl (hnb b)
  | _ => simp [Provider.BooleanEvaluation, h, hc]

/-- The four rows are exhaustive: every result of `BooleanEvaluation` is one of
them. -/
theorem BooleanEvaluation_cases :
    (∃ x det, extractDistinctID evalCtx = (x, some det) ∧
      p.BooleanEvaluation fmtV flag defaultValue evalCtx st =
        ({ toProviderResolutionDetail := det, Value := defaultValue }, st)) ∨
    (∃ s resp err st1, extractDistinctID evalCtx = (s, none) ∧
      p.client.IsFeatureEnabled { Key := flag, DistinctId := s } st = ((resp, some err), st1) ∧
      p.BooleanEvaluation fmtV flag defaultValue evalCtx st =
        ({ toProviderResolutionDetail := fromPostHogError err, Value := defaultValue }, st1)) ∨
    (∃ s b st1, extractDistinctID evalCtx = (s, none) ∧
      p.client.IsFeatureEnabled { Key := flag, DistinctId := s } st
        = ((GoValue.bool b, none), st1) ∧
      p.BooleanEvaluation fmtV flag defaultValue evalCtx st =
        ({ Value := b, Reason := TargetingMatchReason }, st1)) ∨
    (∃ s resp st1, extractDistinctID evalCtx = (s, none) ∧
      p.client.IsFeatureEnabled { Key := flag, DistinctId := s } st = ((resp, none), st1) ∧
      (∀ b, resp ≠ GoValue.bool b) ∧
      p.BooleanEvaluation fmtV flag defaultValue evalCtx st =
        ({ Value := defaultValue,
           ResolutionError := NewTypeMismatchResolutionError
             ("unable to convert response to boolean: " ++ fmtV resp),
           Reason := ErrorReason }, st1)) := by
  rcases hx : extractDistinctID evalCtx with ⟨x, _ | det⟩
  · rcases hc : p.client.IsFeatureEnabled { Key := flag, DistinctId := x } st
      with ⟨⟨resp, _ | err⟩, st1⟩
    · by_cases hb : ∃ b, resp = GoValue.bool b
      · obtain ⟨b, rfl⟩ := hb
        exact Or.inr (Or.inr (Or.inl ⟨x, b, st1, rfl, hc,
          BooleanEvaluation_of_bool fmtV p flag defaultValue evalCtx st x b st1 hx hc⟩))
      · have hnb : ∀ b, resp ≠ GoValue.bool b := fun b hb2 => hb ⟨b, hb2⟩
        exact Or.inr (Or.inr (Or.inr ⟨x, resp, st1, rfl, hc, hnb,
          BooleanEvaluation_of_other fmtV p flag defaultValue evalCtx st x resp st1 hx hc hnb⟩))
    · exact Or.inr (Or.inl ⟨x, resp, err, st1, rfl, hc,
        BooleanEvaluation_of_error fmtV p flag defaultValue evalCtx st x resp err st1 hx hc⟩)
  · exact Or.inl ⟨x, det, rfl,
      BooleanEvaluation_of_detail fmtV p flag defaultValue evalCtx st x det hx⟩

/-- When the identity is the string `s`, the client state after
`BooleanEvaluation` is the state after the one call made for `(flag, s)`. -/
theorem BooleanEvaluation_state (s : String) (h : extractDistinctID evalCtx = (s, none)) :
    (p.BooleanEvaluation fmtV flag defaultValue evalCtx st).2 =
      (p.client.IsFeatureEnabled { Key := flag, DistinctId := s } st).2 := by
  rcases hc : p.client.IsFeatureEnabled { Key := flag, DistinctId := s } st
    with ⟨⟨resp, _ | err⟩, st1⟩
  · by_cases hb : ∃ b, resp = GoValue.bool b
    · obtain ⟨b, rfl⟩ := hb
      rw [BooleanEvaluation_of_bool fmtV p flag defaultValue evalCtx st s b st1 h hc]
    · rw [BooleanEvaluation_of_other fmtV p flag defaultValue evalCtx st s resp st1 h hc
        (fun b hb2 => hb ⟨b, hb2⟩)]
  · rw [BooleanEvaluation_of_error fmtV p flag defaultValue evalCtx st s resp err st1 h hc]

end DecisionTable

/-! ## Successful boolean responses -/

/-- C1, evaluated on the input of the test `falseResponseNoError` (flag "flag",
default false, context with targetingKey "my_distinct_id", client answering
`(false, nil)`): the provider returns value false and the empty error, but the
reason is `TargetingMatchReason`, which differs from the `UnknownReason` that the
test expects. -/
theorem booleanEvaluation_false_response_reason (fmtV : GoValue → String) :
    ((New (stubClient (GoValue.bool false) none)).BooleanEvaluation
        fmtV "flag" false testEvalCtx ()).1.Value = false ∧
    ((New (stubClient (GoValue.bool false) none)).BooleanEvaluation
        fmtV "flag" false testEvalCtx ()).1.ResolutionError = {} ∧
    ((New (stubClient (GoValue.bool false) none)).BooleanEvaluation
        fmtV "flag" false testEvalCtx ()).1.Reason = TargetingMatchReason ∧
    ((New (stubClient (GoValue.bool false) none)).BooleanEvaluation
        fmtV "flag" false testEvalCtx ()).1.Reason ≠ UnknownReason := by
  refine ⟨rfl, rfl, rfl, ?_⟩
  show TargetingMatchReason ≠ UnknownReason
  decide

/-- C2: for every flag key, default and context (with pairwise different keys)
that maps targetingKey to a string `s`, if the client call made for `(flag, s)`
returns the boolean true and no error, then `BooleanEvaluation` returns value
true, reason `TargetingMatchReason` and the empty resolution error. -/
theorem booleanEvaluation_true_response {σ : Type} (fmtV : GoValue → String) (p : Provider σ)
    (flag : String) (defaultValue : Bool) (evalCtx : FlattenedContext) (s : String) (st : σ)
    (hk : (evalCtx.map Prod.fst).Nodup) (hs : (DistinctIdKey, GoValue.str s) ∈ evalCtx)
    (hc : (p.client.IsFeatureEnabled { Key := flag, DistinctId := s } st).1
      = (GoValue.bool true, none)) :
    (p.BooleanEvaluation fmtV flag defaultValue evalCtx st).1.Value = true ∧
    (p.BooleanEvaluation fmtV flag defaultValue evalCtx st).1.Reason = TargetingMatchReason ∧
    (p.BooleanEvaluation fmtV flag defaultValue evalCtx st).1.ResolutionError = {} := by
  have hx := extractDistinctID_string evalCtx s hk hs
  have hcall : p.client.IsFeatureEnabled { Key := flag, DistinctId := s } st
      = ((GoValue.bool true, none),
         (p.client.IsFeatureEnabled { Key := flag, DistinctId := s } st).2) := by
    rw [← hc]
  rw [BooleanEvaluation_of_bool fmtV p flag defaultValue evalCtx st s true _ hx hcall]
  exact ⟨rfl, rfl, rfl⟩

/-- Instance of C2 on the input of the test `trueResponseNoError`, default false. -/
theorem booleanEvaluation_true_response_witness :
    ((testEvalCtx.map Prod.fst).Nodup ∧
      (DistinctIdKey, GoValue.str "my_distinct_id") ∈ testEvalCtx) ∧
    ((New (stubClient (GoValue.bool true) none)).BooleanEvaluation
        (fun _ => "") "flag" false testEvalCtx ()).1.Value = true ∧
    ((New (stubClient (GoValue.bool true) none)).BooleanEvaluation
        (fun _ => "") "flag" false testEvalCtx ()).1.Reason = TargetingMatchReason ∧
    ((New (stubClient (GoValue.bool true) none)).BooleanEvaluation
        (fun _ => "") "flag" false testEvalCtx ()).1.ResolutionError = {} :=
  ⟨⟨by simp [testEvalCtx], by simp [testEvalCtx]⟩,
   booleanEvaluation_true_response (fun _ => "") (New (stubClient (GoValue.bool true) none))
     "flag" false testEvalCtx "my_distinct_id" ()
     (by simp [testEvalCtx]) (by simp [testEvalCtx]) rfl⟩

/-! ## Failures -/

/-- C3: for every flag key, default, client and client state, and every context
without an entry under `DistinctIdKey` (the empty context included),
`BooleanEvaluation` returns the default, reason `ErrorReason` and the
targeting-key-missing error with message "no targetingKey/distinctId". -/
theorem booleanEvaluation_identity_absent {σ : Type} (fmtV : GoValue → String)
    (p : Provider σ) (flag : String) (defaultValue : Bool) (evalCtx : FlattenedContext)
    (st : σ) (h : ∀ e ∈ evalCtx, e.1 ≠ DistinctIdKey) :
    (p.BooleanEvaluation fmtV flag defaultValue evalCtx st).1.Value = defaultValue ∧
    (p.BooleanEvaluation fmtV flag defaultValue evalCtx st).1.Reason = ErrorReason ∧
    (p.BooleanEvaluation fmtV flag defaultValue evalCtx st).1.ResolutionError.code
      = TargetingKeyMissingCode ∧
    (p.BooleanEvaluation fmtV flag defaultValue evalCtx st).1.ResolutionError.message
      = "no targetingKey/distinctId" := by
  rw [BooleanEvaluation_of_detail fmtV p flag defaultValue evalCtx st _ _
    (extractDistinctID_absent evalCtx h)]
  exact ⟨rfl, rfl, rfl, rfl⟩

/-- Instance of C3 on the input of the test `noDistinctIdFails`: the empty
context, with a client that would have answered true. -/
theorem booleanEvaluation_identity_absent_witness :
    ((New (stubClient (GoValue.bool true) none)).BooleanEvaluation
        (fun _ => "") "flag" false [] ()).1.Value = false ∧
    ((New (stubClient (GoValue.bool true) none)).BooleanEvaluation
        (fun _ => "") "flag" false [] ()).1.Reason = ErrorReason ∧
    ((New (stubClient (GoValue.bool true) none)).BooleanEvaluation
        (fun _ => "") "flag" false [] ()).1.ResolutionError.code = TargetingKeyMissingCode ∧
    ((New (stubClient (GoValue.bool true) none)).BooleanEvaluation
        (fun _ => "") "flag" false [] ()).1.ResolutionError.message
      = "no targetingKey/distinctId" :=
  booleanEvaluation_identity_absent (fun _ => "") (New (stubClient (GoValue.bool true) none))
    "flag" false [] () (fun e he => absurd he (List.not_mem_nil e))

/-- C4: for every flag key, default and context (with pairwise different keys)
that maps targetingKey to a string `s`, if the client call made for `(flag, s)`
returns a non-nil error `err` (with any response value), then
`BooleanEvaluation` returns the default, reason `ErrorReason`, and a resolution
error with the general code whose message is "posthog client error: " followed
by the text of `err`; that text is therefore a substring of the message. -/
theorem booleanEvaluation_client_error {σ : Type} (fmtV : GoValue → String) (p : Provider σ)
    (flag : String) (defaultValue : Bool) (evalCtx : FlattenedContext) (s : String) (st : σ)
    (err : GoError)
    (hk : (evalCtx.map Prod.fst).Nodup) (hs : (DistinctIdKey, GoValue.str s) ∈ evalCtx)
    (hc : (p.client.IsFeatureEnabled { Key := flag, DistinctId := s } st).1.2 = some err) :
    (p.BooleanEvaluation fmtV flag defaultValue evalCtx st).1.Value = defaultValue ∧
    (p.BooleanEvaluation fmtV flag defaultValue evalCtx st).1.Reason = ErrorReason ∧
    (p.BooleanEvaluation fmtV flag defaultValue evalCtx st).1.ResolutionError.code
      = GeneralCode ∧
    (p.BooleanEvaluation fmtV flag defaultValue evalCtx st).1.ResolutionError.message
      = "posthog client error: " ++ err.Error ∧
    err.Error.data <:+:
      (p.BooleanEvaluation fmtV flag defaultValue evalCtx st).1.ResolutionError.message.data := by
  have hx := extractDistinctID_string evalCtx s hk hs
  have hcall : p.client.IsFeatureEnabled { Key := flag, DistinctId := s } st
      = (((p.client.IsFeatureEnabled { Key := flag, DistinctId := s } st).1.1, some err),
         (p.client.IsFeatureEnabled { Key := flag, DistinctId := s } st).2) := by
    rw [← hc]
  rw [BooleanEvaluation_of_error fmtV p flag defaultValue evalCtx st s _ err _ hx hcall]
  refine ⟨rfl, rfl, rfl, rfl, ?_⟩
  show err.Error.data <:+: ("posthog client error: " ++ err.Error).data
  exact ⟨"posthog client error: ".data, [], by simp [String.data_append]⟩

/-- Instance of C4 on the input of the test `isFeaturedEnabledFails`: the client
answers `(nil, errors.New("no feature flag"))`. -/
theorem booleanEvaluation_client_error_witness :
    ((New (stubClient GoValue.nil (some ⟨"no feature flag"⟩))).BooleanEvaluation
        (fun _ => "") "flag" false testEvalCtx ()).1.Value = false ∧
    ((New (stubClient GoValue.nil (some ⟨"no feature flag"⟩))).BooleanEvaluation
        (fun _ => "") "flag" false testEvalCtx ()).1.Reason = ErrorReason ∧
    ((New (stubClient GoValue.nil (some ⟨"no feature flag"⟩))).BooleanEvaluation
        (fun _ => "") "flag" false testEvalCtx ()).1.ResolutionError.code = GeneralCode ∧
    ((New (stubClient GoValue.nil (some ⟨"no feature flag"⟩))).BooleanEvaluation
        (fun _ => "") "flag" false testEvalCtx ()).1.ResolutionError.message
      = "posthog client error: " ++ "no feature flag" ∧
    "no feature flag".data <:+:
      ((New (stubClient GoValue.nil (some ⟨"no feature flag"⟩))).BooleanEvaluation
        (fun _ => "") "flag" false testEvalCtx ()).1.ResolutionError.message.data :=
  booleanEvaluation_client_error (fun _ => "")
    (New (stubClient GoValue.nil (some ⟨"no feature flag"⟩)))
    "flag" false testEvalCtx "my_distinct_id" () ⟨"no feature flag"⟩
    (by simp [testEvalCtx]) (by simp [testEvalCtx]) rfl

/-- C5: for every flag key, default and context (with pairwise different keys)
that maps targetingKey to a string `s`, if the client call made for `(flag, s)`
returns no error and a response that is not a boolean (nil, a string, a number,
a slice or a map), then `BooleanEvaluation` returns the default, reason
`ErrorReason`, and a type-mismatch error whose message is
"unable to convert response to boolean: " followed by the rendering of the
response, so that it begins with "unable to convert response to boolean". -/
theorem booleanEvaluation_not_a_bool {σ : Type} (fmtV : GoValue → String) (p : Provider σ)
    (flag : String) (defaultValue : Bool) (evalCtx : FlattenedContext) (s : String) (st : σ)
    (resp : GoValue)
    (hk : (evalCtx.map Prod.fst).Nodup) (hs : (DistinctIdKey, GoValue.str s) ∈ evalCtx)
    (hc : (p.client.IsFeatureEnabled { Key := flag, DistinctId := s } st).1 = (resp, none))
    (hnb : ∀ b, resp ≠ GoValue.bool b) :
    (p.BooleanEvaluation fmtV flag defaultValue evalCtx st).1.Value = defaultValue ∧
    (p.BooleanEvaluation fmtV flag defaultValue evalCtx st).1.Reason = ErrorReason ∧
    (p.BooleanEvaluation fmtV flag defaultValue evalCtx st).1.ResolutionError.code
      = TypeMismatchCode ∧
    (p.BooleanEvaluation fmtV flag defaultValue evalCtx st).1.ResolutionError.message
      = "unable to convert response to boolean: " ++ fmtV resp ∧
    "unable to convert response to boolean".data <+:
      (p.BooleanEvaluation fmtV flag defaultValue evalCtx st).1.ResolutionError.message.data := by
  have hx := extractDistinctID_string evalCtx s hk hs
  have hcall : p.client.IsFeatureEnabled { Key := flag, DistinctId := s } st
      = ((resp, none), (p.client.IsFeatureEnabled { Key := flag, DistinctId := s } st).2) := by
    rw [← hc]
  rw [BooleanEvaluation_of_other fmtV p flag defaultValue evalCtx st s resp _ hx hcall hnb]
  refine ⟨rfl, rfl, rfl, rfl, ?_⟩
  show "unable to convert response to boolean".data <+:
    ("unable to convert response to boolean: " ++ fmtV resp).data
  refine ⟨": ".data ++ (fmtV resp).data, ?_⟩
  rw [String.data_append, ← List.append_assoc]
  rfl

/-- Instance of C5 on the input of the test `responseIsNotABool`: the client
answers `("hello", nil)`, and `%v` renders the string "hello" as itself. -/
theorem booleanEvaluation_not_a_bool_witness :
    (∀ b, GoValue.str "hello" ≠ GoValue.bool b) ∧
    ((New (stubClient (GoValue.str "hello") none)).BooleanEvaluation
        (fun _ => "hello") "flag" false testEvalCtx ()).1.Value = false ∧
    ((New (stubClient (GoValue.str "hello") none)).BooleanEvaluation
        (fun _ => "hello") "flag" false testEvalCtx ()).1.Reason = ErrorReason ∧
    ((New (stubClient (GoValue.str "hello") none)).BooleanEvaluation
        (fun _ => "hello") "flag" false testEvalCtx ()).1.ResolutionError.code
      = TypeMismatchCode ∧
    ((New (stubClient (GoValue.str "hello") none)).BooleanEvaluation
        (fun _ => "hello") "flag" false testEvalCtx ()).1.ResolutionError.message
      = "unable to convert response to boolean: " ++ "hello" ∧
    "unable to convert response to boolean".data <+:
      ((New (stubClient (GoValue.str "hello") none)).BooleanEvaluation
        (fun _ => "hello") "flag" false testEvalCtx ()).1.ResolutionError.message.data :=
  ⟨fun _ h => GoValue.noConfusion h,
   booleanEvaluation_not_a_bool (fun _ => "hello")
    (New (stubClient (GoValue.str "hello") none))
    "flag" false testEvalCtx "my_distinct_id" () (GoValue.str "hello")
    (by simp [testEvalCtx]) (by simp [testEvalCtx]) rfl (fun _ h => GoValue.noConfusion h)⟩

/-! ## The stub evaluations -/

/-- C6: `StringEvaluation`, `FloatEvaluation`, `IntEvaluation` and
`ObjectEvaluation` return, for every provider, flag key, default and context,
the default as value, reason `DefaultReason`, and the general-code error with
the message "string / float / int / object evaluation not implemented". -/
theorem stub_evaluations_return_default {σ : Type} (p : Provider σ) (flag : String)
    (evalCtx : FlattenedContext) (dString : String) (dFloat : Float) (dInt : Int)
    (dObject : GoValue) :
    ((p.StringEvaluation flag dString evalCtx).Value = dString ∧
      (p.StringEvaluation flag dString evalCtx).Reason = DefaultReason ∧
      (p.StringEvaluation flag dString evalCtx).ResolutionError
        = NewGeneralResolutionError "string evaluation not implemented") ∧
    ((p.FloatEvaluation flag dFloat evalCtx).Value = dFloat ∧
      (p.FloatEvaluation flag dFloat evalCtx).Reason = DefaultReason ∧
      (p.FloatEvaluation flag dFloat evalCtx).ResolutionError
        = NewGeneralResolutionError "float evaluation not implemented") ∧
    ((p.IntEvaluation flag dInt evalCtx).Value = dInt ∧
      (p.IntEvaluation flag dInt evalCtx).Reason = DefaultReason ∧
      (p.IntEvaluation flag dInt evalCtx).ResolutionError
        = NewGeneralResolutionError "int evaluation not implemented") ∧
    ((p.ObjectEvaluation flag dObject evalCtx).Value = dObject ∧
      (p.ObjectEvaluation flag dObject evalCtx).Reason = DefaultReason ∧
      (p.ObjectEvaluation flag dObject evalCtx).ResolutionError
        = NewGeneralResolutionError "object evaluation not implemented") :=
  ⟨⟨rfl, rfl, rfl⟩, ⟨rfl, rfl, rfl⟩, ⟨rfl, rfl, rfl⟩, ⟨rfl, rfl, rfl⟩⟩

/-! ## Invariants of the results -/

/-- C7: for every provider, client state, flag key, context and defaults, in the
result of each of the five evaluation methods a resolution error different from
the zero value implies that the value is the caller's default. -/
theorem populated_error_implies_default {σ : Type} (fmtV : GoValue → String)
    (p : Provider σ) (flag : String) (evalCtx : FlattenedContext) (st : σ)
    (dBool : Bool) (dString : String) (dFloat : Float) (dInt : Int) (dObject : GoValue) :
    ((p.BooleanEvaluation fmtV flag dBool evalCtx st).1.ResolutionError ≠ {} →
      (p.BooleanEvaluation fmtV flag dBool evalCtx st).1.Value = dBool) ∧
    ((p.StringEvaluation flag dString evalCtx).ResolutionError ≠ {} →
      (p.StringEvaluation flag dString evalCtx).Value = dString) ∧
    ((p.FloatEvaluation flag dFloat evalCtx).ResolutionError ≠ {} →
      (p.FloatEvaluation flag dFloat evalCtx).Value = dFloat) ∧
    ((p.IntEvaluation flag dInt evalCtx).ResolutionError ≠ {} →
      (p.IntEvaluation flag dInt evalCtx).Value = dInt) ∧
    ((p.ObjectEvaluation flag dObject evalCtx).ResolutionError ≠ {} →
      (p.ObjectEvaluation flag dObject evalCtx).Value = dObject) := by
  refine ⟨?_, fun _ => rfl, fun _ => rfl, fun _ => rfl, fun _ => rfl⟩
  rcases BooleanEvaluation_cases fmtV p flag dBool evalCtx st with
    ⟨x, det, _, hr⟩ | ⟨s, resp, err, st1, _, _, hr⟩ | ⟨s, b, st1, _, _, hr⟩ |
    ⟨s, resp, st1, _, _, _, hr⟩
  · rw [hr]; exact fun _ => rfl
  · rw [hr]; exact fun _ => rfl
  · rw [hr]; exact fun hne => absurd rfl hne
  · rw [hr]; exact fun _ => rfl

/-- Instance of C7: the client answers `(true, err)` while the default is false;
the error is populated and the value is the default, not the response. -/
theorem populated_error_implies_default_witness :
    ((New (stubClient (GoValue.bool true) (some ⟨"down"⟩))).BooleanEvaluation
        (fun _ => "") "flag" false testEvalCtx ()).1.ResolutionError ≠ {} ∧
    ((New (stubClient (GoValue.bool true) (some ⟨"down"⟩))).BooleanEvaluation
        (fun _ => "") "flag" false testEvalCtx ()).1.Value = false :=
  ⟨by decide,
   (populated_error_implies_default (fun _ => "")
      (New (stubClient (GoValue.bool true) (some ⟨"down"⟩))) "flag" testEvalCtx ()
      false "" 0 0 GoValue.nil).1 (by decide)⟩

/-- C8: for every provider, client state, flag key, context and defaults, in the
result of each of the five evaluation methods a reason `TargetingMatchReason`
or `UnknownReason` implies that the resolution error is the zero value. -/
theorem match_or_unknown_implies_no_error {σ : Type} (fmtV : GoValue → String)
    (p : Provider σ) (flag : String) (evalCtx : FlattenedContext) (st : σ)
    (dBool : Bool) (dString : String) (dFloat : Float) (dInt : Int) (dObject : GoValue) :
    (((p.BooleanEvaluation fmtV flag dBool evalCtx st).1.Reason = TargetingMatchReason ∨
        (p.BooleanEvaluation fmtV flag dBool evalCtx st).1.Reason = UnknownReason) →
      (p.BooleanEvaluation fmtV flag dBool evalCtx st).1.ResolutionError = {}) ∧
    (((p.StringEvaluation flag dString evalCtx).Reason = TargetingMatchReason ∨
        (p.StringEvaluation flag dString evalCtx).Reason = UnknownReason) →
      (p.StringEvaluation flag dString evalCtx).ResolutionError = {}) ∧
    (((p.FloatEvaluation flag dFloat evalCtx).Reason = TargetingMatchReason ∨
        (p.FloatEvaluation flag dFloat evalCtx).Reason = UnknownReason) →
      (p.FloatEvaluation flag dFloat evalCtx).ResolutionError = {}) ∧
    (((p.IntEvaluation flag dInt evalCtx).Reason = TargetingMatchReason ∨
        (p.IntEvaluation flag dInt evalCtx).Reason = UnknownReason) →
      (p.IntEvaluation flag dInt evalCtx).ResolutionError = {}) ∧
    (((p.ObjectEvaluation flag dObject evalCtx).Reason = TargetingMatchReason ∨
        (p.ObjectEvaluation flag dObject evalCtx).Reason = UnknownReason) →
      (p.ObjectEvaluation flag dObject evalCtx).ResolutionError = {}) := by
  have hE : ¬ (ErrorReason = TargetingMatchReason ∨ ErrorReason = UnknownReason) := by decide
  have hD : ¬ (DefaultReason = TargetingMatchReason ∨ DefaultReason = UnknownReason) := by
    decide
  refine ⟨?_, fun h => absurd h hD, fun h => absurd h hD, fun h => absurd h hD,
    fun h => absurd h hD⟩
  rcases BooleanEvaluation_cases fmtV p flag dBool evalCtx st with
    ⟨x, det, hx, hr⟩ | ⟨s, resp, err, st1, _, _, hr⟩ | ⟨s, b, st1, _, _, hr⟩ |
    ⟨s, resp, st1, _, _, _, hr⟩
  · rw [hr]
    intro h
    have hdet : det.Reason = ErrorReason := (extractDistinctID_detail evalCtx x det hx).1
    rw [show (({ toProviderResolutionDetail := det, Value := dBool } : BoolResolutionDetail),
      st).1.Reason = ErrorReason from hdet] at h
    exact absurd h hE
  · rw [hr]; exact fun h => absurd h hE
  · rw [hr]; exact fun _ => rfl
  · rw [hr]; exact fun h => absurd h hE

/-- Instance of C8: the client answers `(true, nil)`; the reason is
`TargetingMatchReason` and the error is the zero value. -/
theorem match_or_unknown_implies_no_error_witness :
    ((New (stubClient (GoValue.bool true) none)).BooleanEvaluation
        (fun _ => "") "flag" false testEvalCtx ()).1.Reason = TargetingMatchReason ∧
    ((New (stubClient (GoValue.bool true) none)).BooleanEvaluation
        (fun _ => "") "flag" false testEvalCtx ()).1.ResolutionError = {} :=
  ⟨rfl,
   (match_or_unknown_implies_no_error (fun _ => "")
      (New (stubClient (GoValue.bool true) none)) "flag" testEvalCtx ()
      false "" 0 0 GoValue.nil).1 (Or.inl rfl)⟩

/-! ## Calls made to the client -/

/-- C9: for every flag key, default and context (with pairwise different keys) in
which the identity key is absent, or present with a value that is not a string,
`BooleanEvaluation` leaves the state of every client as it was, and with a
recording client the call log is unchanged: `IsFeatureEnabled` is not invoked. -/
theorem booleanEvaluation_no_call_without_identity (fmtV : GoValue → String)
    (flag : String) (defaultValue : Bool) (evalCtx : FlattenedContext)
    (hk : (evalCtx.map Prod.fst).Nodup)
    (h : (∀ e ∈ evalCtx, e.1 ≠ DistinctIdKey) ∨
      (∃ v, (DistinctIdKey, v) ∈ evalCtx ∧ ∀ s, v ≠ GoValue.str s)) :
    (∀ (σ : Type) (p : Provider σ) (st : σ),
      (p.BooleanEvaluation fmtV flag defaultValue evalCtx st).2 = st) ∧
    (∀ (σ : Type) (c : Client σ) (st : σ) (log : List FeatureFlagPayload),
      ((New (recordingClient c)).BooleanEvaluation fmtV flag defaultValue evalCtx
        (st, log)).2.2 = log) := by
  have hx : ∃ x det, extractDistinctID evalCtx = (x, some det) := by
    rcases h with habs | ⟨v, hv, hns⟩
    · exact ⟨_, _, extractDistinctID_absent evalCtx habs⟩
    · exact ⟨_, _, extractDistinctID_not_string evalCtx v hk hv hns⟩
  obtain ⟨x, det, hx⟩ := hx
  constructor
  · intro σ p st
    rw [BooleanEvaluation_of_detail fmtV p flag defaultValue evalCtx st x det hx]
  · intro σ c st log
    rw [BooleanEvaluation_of_detail fmtV (New (recordingClient c)) flag defaultValue evalCtx
      (st, log) x det hx]

/-- Instance of C9: the identity key is present with the number 7; the log of
a recording client that already holds one entry is unchanged. -/
theorem booleanEvaluation_no_call_without_identity_witness :
    ((New (recordingClient (stubClient (GoValue.bool true) none))).BooleanEvaluation
        (fun _ => "") "flag" false [("plan", GoValue.str "free"), (DistinctIdKey, GoValue.int 7)]
        ((), [{ Key := "earlier", DistinctId := "someone" }])).2.2
      = [{ Key := "earlier", DistinctId := "someone" }] :=
  (booleanEvaluation_no_call_without_identity (fun _ => "") "flag" false
      [("plan", GoValue.str "free"), (DistinctIdKey, GoValue.int 7)]
      (by decide)
      (Or.inr ⟨GoValue.int 7, by simp, fun _ hv => GoValue.noConfusion hv⟩)).2
    Unit (stubClient (GoValue.bool true) none) ()
    [{ Key := "earlier", DistinctId := "someone" }]

/-- C10: for every flag key `f`, default and context (with pairwise different
keys) that maps the identity key to a string `s`, and for every client `c`
observed through a recording client, `BooleanEvaluation` appends exactly one
entry to the call log, the payload with `Key = f`, `DistinctId = s` and every
other field at its zero value, and the state of `c` is the state after that one
call; this holds whatever `c` answers. -/
theorem booleanEvaluation_calls_client_once {σ : Type} (fmtV : GoValue → String)
    (c : Client σ) (f : String) (defaultValue : Bool) (evalCtx : FlattenedContext)
    (s : String) (st : σ) (log : List FeatureFlagPayload)
    (hk : (evalCtx.map Prod.fst).Nodup) (hs : (DistinctIdKey, GoValue.str s) ∈ evalCtx) :
    ((New (recordingClient c)).BooleanEvaluation fmtV f defaultValue evalCtx (st, log)).2
      = ((c.IsFeatureEnabled
            { Key := f, DistinctId := s, Groups := none, PersonProperties := none,
              GroupProperties := none, OnlyEvaluateLocally := false,
              SendFeatureFlagEvents := none } st).2,
         log ++ [{ Key := f, DistinctId := s, Groups := none, PersonProperties := none,
                   GroupProperties := none, OnlyEvaluateLocally := false,
                   SendFeatureFlagEvents := none }]) := by
  rw [BooleanEvaluation_state fmtV (New (recordingClient c)) f defaultValue evalCtx (st, log) s
    (extractDistinctID_string evalCtx s hk hs)]
  rfl

/-- Instance of C10: a context with two further attributes and a client that
answers with an error; the log, empty before, holds the one payload
`("flag", "my_distinct_id")` afterwards. -/
theorem booleanEvaluation_calls_client_once_witness :
    ((New (recordingClient (stubClient GoValue.nil (some ⟨"down"⟩)))).BooleanEvaluation
        (fun _ => "") "flag" false
        [("plan", GoValue.str "free"), (DistinctIdKey, GoValue.str "my_distinct_id"),
         ("age", GoValue.int 30)] ((), [])).2
      = ((), [{ Key := "flag", DistinctId := "my_distinct_id", Groups := none,
                PersonProperties := none, GroupProperties := none,
                OnlyEvaluateLocally := false, SendFeatureFlagEvents := none }]) :=
  booleanEvaluation_calls_client_once (fun _ => "") (stubClient GoValue.nil (some ⟨"down"⟩))
    "flag" false
    [("plan", GoValue.str "free"), (DistinctIdKey, GoValue.str "my_distinct_id"),
     ("age", GoValue.int 30)] "my_distinct_id" () [] (by decide) (by simp)

/-! ## Independence of the iteration order -/

/-- In a context with pairwise different keys, the entry under the identity key
alone decides the outcome of the extraction. -/
theorem extractDistinctID_of_mem (evalCtx : FlattenedContext) (v : GoValue)
    (hk : (evalCtx.map Prod.fst).Nodup) (hv : (DistinctIdKey, v) ∈ evalCtx) :
    extractDistinctID evalCtx = extractDistinctID [(DistinctIdKey, v)] := by
  by_cases hstr : ∃ s, v = GoValue.str s
  · obtain ⟨s, rfl⟩ := hstr
    rw [extractDistinctID_string evalCtx s hk hv]
    simp [extractDistinctID]
  · have hns : ∀ s, v ≠ GoValue.str s := fun s hs => hstr ⟨s, hs⟩
    rw [extractDistinctID_not_string evalCtx v hk hv hns,
      extractDistinctID_not_string [(DistinctIdKey, v)] v (by simp) (by simp) hns]

/-- Two contexts with pairwise different keys that both lack the identity key,
or both map it to the same value, give the same extraction. -/
theorem extractDistinctID_congr (c1 c2 : FlattenedContext)
    (hk1 : (c1.map Prod.fst).Nodup) (hk2 : (c2.map Prod.fst).Nodup)
    (h : ((∀ e ∈ c1, e.1 ≠ DistinctIdKey) ∧ (∀ e ∈ c2, e.1 ≠ DistinctIdKey)) ∨
      (∃ v, (DistinctIdKey, v) ∈ c1 ∧ (DistinctIdKey, v) ∈ c2)) :
    extractDistinctID c1 = extractDistinctID c2 := by
  rcases h with ⟨h1, h2⟩ | ⟨v, h1, h2⟩
  · rw [extractDistinctID_absent c1 h1, extractDistinctID_absent c2 h2]
  · rw [extractDistinctID_of_mem c1 v hk1 h1, extractDistinctID_of_mem c2 v hk2 h2]

/-- The extraction does not depend on the order in which a map with pairwise
different keys is iterated. -/
theorem extractDistinctID_perm (c1 c2 : FlattenedContext)
    (hk1 : (c1.map Prod.fst).Nodup) (hp : c2.Perm c1) :
    extractDistinctID c2 = extractDistinctID c1 := by
  have hk2 : (c2.map Prod.fst).Nodup := (List.Perm.nodup_iff (hp.map Prod.fst)).mpr hk1
  apply extractDistinctID_congr c2 c1 hk2 hk1
  by_cases hex : ∃ v, (DistinctIdKey, v) ∈ c1
  · obtain ⟨v, hv⟩ := hex
    exact Or.inr ⟨v, hp.mem_iff.mpr hv, hv⟩
  · have h1 : ∀ e ∈ c1, e.1 ≠ DistinctIdKey := by
      intro e he hkey
      apply hex
      refine ⟨e.2, ?_⟩
      rw [← hkey]
      exact he
    exact Or.inl ⟨fun e he => h1 e (hp.mem_iff.mp he), h1⟩

/-- The context enters `BooleanEvaluation` only through the extraction. -/
theorem BooleanEvaluation_congr_ctx {σ : Type} (fmtV : GoValue → String) (p : Provider σ)
    (flag : String) (defaultValue : Bool) (c1 c2 : FlattenedContext) (st : σ)
    (h : extractDistinctID c1 = extractDistinctID c2) :
    p.BooleanEvaluation fmtV flag defaultValue c1 st
      = p.BooleanEvaluation fmtV flag defaultValue c2 st := by
  unfold Provider.BooleanEvaluation
  rw [h]

/-- The result of `BooleanEvaluation` is determined by the extraction and by
the answers of the client in the state in which it is called. -/
theorem BooleanEvaluation_congr_result {σ : Type} (fmtV : GoValue → String) (p : Provider σ)
    (flag : String) (defaultValue : Bool) (c1 c2 : FlattenedContext) (st1 st2 : σ)
    (hx : extractDistinctID c2 = extractDistinctID c1)
    (hr : ∀ payload, (p.client.IsFeatureEnabled payload st2).1
      = (p.client.IsFeatureEnabled payload st1).1) :
    (p.BooleanEvaluation fmtV flag defaultValue c2 st2).1
      = (p.BooleanEvaluation fmtV flag defaultValue c1 st1).1 := by
  rcases BooleanEvaluation_cases fmtV p flag defaultValue c1 st1 with
    ⟨x, det, h1, hres⟩ | ⟨s, resp, err, st, h1, hc, hres⟩ | ⟨s, b, st, h1, hc, hres⟩ |
    ⟨s, resp, st, h1, hc, hnb, hres⟩
  · rw [hres, BooleanEvaluation_of_detail fmtV p flag defaultValue c2 st2 x det (hx.trans h1)]
  · have hc2 : p.client.IsFeatureEnabled { Key := flag, DistinctId := s } st2
        = ((resp, some err),
           (p.client.IsFeatureEnabled { Key := flag, DistinctId := s } st2).2) := by
      rw [← show (p.client.IsFeatureEnabled { Key := flag, DistinctId := s } st2).1
        = (resp, some err) from (hr _).trans (by rw [hc])]
    rw [hres, BooleanEvaluation_of_error fmtV p flag defaultValue c2 st2 s resp err _
      (hx.trans h1) hc2]
  · have hc2 : p.client.IsFeatureEnabled { Key := flag, DistinctId := s } st2
        = ((GoValue.bool b, none),
           (p.client.IsFeatureEnabled { Key := flag, DistinctId := s } st2).2) := by
      rw [← show (p.client.IsFeatureEnabled { Key := flag, DistinctId := s } st2).1
        = (GoValue.bool b, none) from (hr _).trans (by rw [hc])]
    rw [hres, BooleanEvaluation_of_bool fmtV p flag defaultValue c2 st2 s b _
      (hx.trans h1) hc2]
  · have hc2 : p.client.IsFeatureEnabled { Key := flag, DistinctId := s } st2
        = ((resp, none),
           (p.client.IsFeatureEnabled { Key := flag, DistinctId := s } st2).2) := by
      rw [← show (p.client.IsFeatureEnabled { Key := flag, DistinctId := s } st2).1
        = (resp, none) from (hr _).trans (by rw [hc])]
    rw [hres, BooleanEvaluation_of_other fmtV p flag defaultValue c2 st2 s resp _
      (hx.trans h1) hc2 hnb]

/-- The two details that `extractDistinctID` can build. -/
theorem extractDistinctID_shape (evalCtx : FlattenedContext) (x : String)
    (det : ProviderResolutionDetail) (h : extractDistinctID evalCtx = (x, some det)) :
    det = { ResolutionError :=
              NewTargetingKeyMissingResolutionError "no targetingKey/distinctId",
            Reason := ErrorReason } ∨
    det = { ResolutionError := NewTargetingKeyMissingResolutionError
              "value of targetingKey/distinctId cannnot be converted to string",
            Reason := ErrorReason } := by
  induction evalCtx with
  | nil =>
    simp only [extractDistinctID, Prod.mk.injEq, Option.some.injEq] at h
    exact Or.inl h.2.symm
  | cons e rest ih =>
    obtain ⟨key, val⟩ := e
    by_cases hkey : key = DistinctIdKey
    · cases val <;>
        simp only [extractDistinctID, hkey, if_true, Prod.mk.injEq, Option.some.injEq,
          reduceCtorEq, and_false] at h <;>
        exact Or.inr h.2.symm
    · simp only [extractDistinctID, hkey, if_false] at h
      exact ih h

/-! ## Identity of the wrong type, metadata and hooks -/

/-- C11: for every flag key, default, client and client state, and every context
(with pairwise different keys) in which the identity key is present with a value
that is not a string, `BooleanEvaluation` returns the default, reason
`ErrorReason` and the targeting-key-missing error with message
"value of targetingKey/distinctId cannnot be converted to string". -/
theorem booleanEvaluation_identity_not_string {σ : Type} (fmtV : GoValue → String)
    (p : Provider σ) (flag : String) (defaultValue : Bool) (evalCtx : FlattenedContext)
    (st : σ) (v : GoValue)
    (hk : (evalCtx.map Prod.fst).Nodup) (hv : (DistinctIdKey, v) ∈ evalCtx)
    (hns : ∀ s, v ≠ GoValue.str s) :
    (p.BooleanEvaluation fmtV flag defaultValue evalCtx st).1.Value = defaultValue ∧
    (p.BooleanEvaluation fmtV flag defaultValue evalCtx st).1.Reason = ErrorReason ∧
    (p.BooleanEvaluation fmtV flag defaultValue evalCtx st).1.ResolutionError.code
      = TargetingKeyMissingCode ∧
    (p.BooleanEvaluation fmtV flag defaultValue evalCtx st).1.ResolutionError.message
      = "value of targetingKey/distinctId cannnot be converted to string" := by
  rw [BooleanEvaluation_of_detail fmtV p flag defaultValue evalCtx st _ _
    (extractDistinctID_not_string evalCtx v hk hv hns)]
  exact ⟨rfl, rfl, rfl, rfl⟩

/-- Instance of C11: the identity key holds the boolean true, the default is
true, and the client would have answered false. -/
theorem booleanEvaluation_identity_not_string_witness :
    ((New (stubClient (GoValue.bool false) none)).BooleanEvaluation
        (fun _ => "") "flag" true [(DistinctIdKey, GoValue.bool true)] ()).1.Value = true ∧
    ((New (stubClient (GoValue.bool false) none)).BooleanEvaluation
        (fun _ => "") "flag" true [(DistinctIdKey, GoValue.bool true)] ()).1.Reason
      = ErrorReason ∧
    ((New (stubClient (GoValue.bool false) none)).BooleanEvaluation
        (fun _ => "") "flag" true [(DistinctIdKey, GoValue.bool true)] ()).1.ResolutionError.code
      = TargetingKeyMissingCode ∧
    ((New (stubClient (GoValue.bool false) none)).BooleanEvaluation
        (fun _ => "") "flag" true
        [(DistinctIdKey, GoValue.bool true)] ()).1.ResolutionError.message
      = "value of targetingKey/distinctId cannnot be converted to string" :=
  booleanEvaluation_identity_not_string (fun _ => "")
    (New (stubClient (GoValue.bool false) none)) "flag" true
    [(DistinctIdKey, GoValue.bool true)] () (GoValue.bool true)
    (by decide) (by simp) (fun _ hv => GoValue.noConfusion hv)

/-- C12: for every client `c`, the provider `New c` has metadata name "PostHog"
and its hooks are the nil slice, of length 0; neither method reads the client or
its state, so the evaluations made before do not matter. -/
theorem metadata_and_hooks_fixed {σ : Type} (c : Client σ) :
    (New c).Metadata.Name = "PostHog" ∧ (New c).Hooks = none ∧ sliceLen (New c).Hooks = 0 :=
  ⟨rfl, rfl, rfl⟩

/-! ## Determinism -/

/-- C13: a boolean evaluation followed by a second one with the same flag key,
default and context (the same map, possibly iterated in another order), made in
the client state that the first one left, against a client that answers in that
state as it did before, returns the same result as the first; and each stub
evaluation returns the same result on identical inputs. -/
theorem evaluation_repeatable {σ : Type} (fmtV : GoValue → String) (p : Provider σ)
    (flag : String) (evalCtx evalCtx2 : FlattenedContext) (st : σ)
    (dBool : Bool) (dString : String) (dFloat : Float) (dInt : Int) (dObject : GoValue)
    (hk : (evalCtx.map Prod.fst).Nodup) (hp : evalCtx2.Perm evalCtx)
    (hr : ∀ payload,
      (p.client.IsFeatureEnabled payload (p.BooleanEvaluation fmtV flag dBool evalCtx st).2).1
        = (p.client.IsFeatureEnabled payload st).1) :
    (p.BooleanEvaluation fmtV flag dBool evalCtx2
        (p.BooleanEvaluation fmtV flag dBool evalCtx st).2).1
      = (p.BooleanEvaluation fmtV flag dBool evalCtx st).1 ∧
    p.StringEvaluation flag dString evalCtx2 = p.StringEvaluation flag dString evalCtx ∧
    p.FloatEvaluation flag dFloat evalCtx2 = p.FloatEvaluation flag dFloat evalCtx ∧
    p.IntEvaluation flag dInt evalCtx2 = p.IntEvaluation flag dInt evalCtx ∧
    p.ObjectEvaluation flag dObject evalCtx2 = p.ObjectEvaluation flag dObject evalCtx :=
  ⟨BooleanEvaluation_congr_result fmtV p flag dBool evalCtx evalCtx2 st _
      (extractDistinctID_perm evalCtx evalCtx2 hk hp) hr,
   rfl, rfl, rfl, rfl⟩

/-- Instance of C13: a recording client around a stub that answers `(true, nil)`;
the first call changes the client state (the log grows), the second call sees
the two entries of the context in the other order, and the results agree. -/
theorem evaluation_repeatable_witness :
    ((New (recordingClient (stubClient (GoValue.bool true) none))).BooleanEvaluation
        (fun _ => "") "flag" false
        [(DistinctIdKey, GoValue.str "my_distinct_id"), ("plan", GoValue.str "free")]
        ((New (recordingClient (stubClient (GoValue.bool true) none))).BooleanEvaluation
          (fun _ => "") "flag" false
          [("plan", GoValue.str "free"), (DistinctIdKey, GoValue.str "my_distinct_id")]
          ((), [])).2).1
      = ((New (recordingClient (stubClient (GoValue.bool true) none))).BooleanEvaluation
          (fun _ => "") "flag" false
          [("plan", GoValue.str "free"), (DistinctIdKey, GoValue.str "my_distinct_id")]
          ((), [])).1 :=
  (evaluation_repeatable (fun _ => "")
    (New (recordingClient (stubClient (GoValue.bool true) none))) "flag"
    [("plan", GoValue.str "free"), (DistinctIdKey, GoValue.str "my_distinct_id")]
    [(DistinctIdKey, GoValue.str "my_distinct_id"), ("plan", GoValue.str "free")]
    ((), []) false "" 0 0 GoValue.nil (by decide) (List.Perm.swap _ _ _)
    (fun _ => rfl)).1

/-! ## Panics and the shape of the boolean result -/

/-- On a client that never panics the evaluation with panics made visible
returns, and returns what the evaluation of the first embedding returns, up to
the representation of the error. -/
theorem BooleanEvaluation_ofClient_returns {σ : Type} (fmtV : GoValue → String)
    (c : Client σ) (flag : String) (defaultValue : Bool) (evalCtx : FlattenedContext)
    (st : σ) :
    (Panics.New (some (Panics.ofClient c))).BooleanEvaluation fmtV flag defaultValue evalCtx st
      = some ((New c).BooleanEvaluation fmtV flag defaultValue evalCtx st) := by
  rcases hx : extractDistinctID evalCtx with ⟨x, _ | det⟩
  · rcases hc : c.IsFeatureEnabled { Key := flag, DistinctId := x } st
      with ⟨⟨resp, _ | err⟩, st1⟩
    · cases resp <;>
        simp [Panics.Provider.BooleanEvaluation, Provider.BooleanEvaluation, Panics.New, New,
          Panics.ofClient, hx, hc]
    · simp [Panics.Provider.BooleanEvaluation, Provider.BooleanEvaluation, Panics.New, New,
        Panics.ofClient, Panics.fromPostHogError, fromPostHogError, hx, hc]
  · simp [Panics.Provider.BooleanEvaluation, Provider.BooleanEvaluation, hx]

/-- C14 fails on two inputs.  With the nil client handed to `New` and the
context of the tests, `BooleanEvaluation` panics at the call of the client; with
a client that answers `(nil, err)` where `err.Error()` panics, it panics in
`fromPostHogError`.  In both cases no result reaches the caller. -/
theorem booleanEvaluation_panics :
    (Panics.New (none : Option (Panics.Client Unit))).BooleanEvaluation
        (fun _ => "") "flag" false testEvalCtx () = none ∧
    (Panics.New (some (Panics.stubClient GoValue.nil (some { Error := none })))).BooleanEvaluation
        (fun _ => "") "flag" false testEvalCtx () = none := by
  constructor <;> rfl

/-- C14 as amended: for every provider built by `New` (from any client value,
nil included), every flag key, default, context and client state such that,
whenever the context yields a string identity `s`, the client is not nil, its
call for `(flag, s)` returns, and the error it returns, if any, has a text,
`BooleanEvaluation` returns a result `r` and a client state `st1`, with the
variant and flag metadata at their zero values, in exactly one of four shapes:
the identity is missing and `r` is the default with reason `ErrorReason` and a
populated error, the client untouched; the call returned an error and `r` is the
default with reason `ErrorReason` and a populated error; the call returned no
error and a response that is not a boolean, and `r` is the default with reason
`ErrorReason` and a populated error; the call returned the boolean `b` and no
error, and `r` has value `b`, the zero error and a reason other than
`ErrorReason`. -/
theorem booleanEvaluation_returns_well_formed {σ : Type} (fmtV : GoValue → String)
    (client : Option (Panics.Client σ)) (flag : String) (defaultValue : Bool)
    (evalCtx : FlattenedContext) (st : σ)
    (h : ∀ s, extractDistinctID evalCtx = (s, none) →
      ∃ c out st1, client = some c ∧
        c.IsFeatureEnabled { Key := flag, DistinctId := s } st = some (out, st1) ∧
        ∀ e, out.2 = some e → ∃ text, e.Error = some text) :
    ∃ (r : BoolResolutionDetail) (st1 : σ),
      (Panics.New client).BooleanEvaluation fmtV flag defaultValue evalCtx st = some (r, st1) ∧
      r.Variant = "" ∧ r.FlagMetadata = none ∧
      ((∃ x det, extractDistinctID evalCtx = (x, some det) ∧ st1 = st ∧
          r.Value = defaultValue ∧ r.Reason = ErrorReason ∧ r.ResolutionError ≠ {}) ∨
       (∃ s c resp e text, extractDistinctID evalCtx = (s, none) ∧ client = some c ∧
          c.IsFeatureEnabled { Key := flag, DistinctId := s } st
            = some ((resp, some e), st1) ∧ e.Error = some text ∧
          r.Value = defaultValue ∧ r.Reason = ErrorReason ∧ r.ResolutionError ≠ {}) ∨
       (∃ s c resp, extractDistinctID evalCtx = (s, none) ∧ client = some c ∧
          c.IsFeatureEnabled { Key := flag, DistinctId := s } st
            = some ((resp, none), st1) ∧ (∀ b, resp ≠ GoValue.bool b) ∧
          r.Value = defaultValue ∧ r.Reason = ErrorReason ∧ r.ResolutionError ≠ {}) ∨
       (∃ s c b, extractDistinctID evalCtx = (s, none) ∧ client = some c ∧
          c.IsFeatureEnabled { Key := flag, DistinctId := s } st
            = some ((GoValue.bool b, none), st1) ∧
          r.Value = b ∧ r.Reason ≠ ErrorReason ∧ r.ResolutionError = {})) := by
  have hG : ∀ m : String, NewGeneralResolutionError m ≠ {} := by
    intro m h0
    have hcode : GeneralCode = "" := congrArg ResolutionError.code h0
    exact absurd hcode (by decide)
  have hTE : TargetingMatchReason ≠ ErrorReason := by decide
  have hT : ∀ m : String, NewTypeMismatchResolutionError m ≠ {} := by
    intro m h0
    have hcode : TypeMismatchCode = "" := congrArg ResolutionError.code h0
    exact absurd hcode (by decide)
  rcases hx : extractDistinctID evalCtx with ⟨x, _ | det⟩
  · obtain ⟨c, out, st1, hcl, hcall, herr⟩ := h x hx
    obtain ⟨resp, eo⟩ := out
    subst hcl
    cases eo with
    | some e =>
      obtain ⟨text, htext⟩ := herr e rfl
      refine ⟨{ Value := defaultValue, Reason := ErrorReason,
                ResolutionError := NewGeneralResolutionError
                  ("posthog client error: " ++ text) }, st1, ?_, rfl, rfl,
        Or.inr (Or.inl ⟨x, c, resp, e, text, rfl, rfl, hcall, htext, rfl, rfl, hG _⟩)⟩
      simp [Panics.Provider.BooleanEvaluation, Panics.New, Panics.fromPostHogError, hx, hcall,
        htext]
    | none =>
      by_cases hb : ∃ b, resp = GoValue.bool b
      · obtain ⟨b, rfl⟩ := hb
        refine ⟨{ Value := b, Reason := TargetingMatchReason }, st1, ?_, rfl, rfl,
          Or.inr (Or.inr (Or.inr ⟨x, c, b, rfl, rfl, hcall, rfl, hTE, rfl⟩))⟩
        simp [Panics.Provider.BooleanEvaluation, Panics.New, hx, hcall]
      · have hnb : ∀ b, resp ≠ GoValue.bool b := fun b hb2 => hb ⟨b, hb2⟩
        refine ⟨{ Value := defaultValue, Reason := ErrorReason,
                  ResolutionError := NewTypeMismatchResolutionError
                    ("unable to convert response to boolean: " ++ fmtV resp) }, st1, ?_,
          rfl, rfl,
          Or.inr (Or.inr (Or.inl ⟨x, c, resp, rfl, rfl, hcall, hnb, rfl, rfl, hT _⟩))⟩
        cases resp with
        | bool b => exact absurd rfl (hnb b)
        | _ => simp [Panics.Provider.BooleanEvaluation, Panics.New, hx, hcall]
  · have hd := extractDistinctID_detail evalCtx x det hx
    refine ⟨{ toProviderResolutionDetail := det, Value := defaultValue }, st, ?_, ?_, ?_,
      Or.inl ⟨x, det, rfl, rfl, rfl, hd.1, ?_⟩⟩
    · simp [Panics.Provider.BooleanEvaluation, hx]
    · rcases extractDistinctID_shape evalCtx x det hx with hs | hs <;> rw [hs]
    · rcases extractDistinctID_shape evalCtx x det hx with hs | hs <;> rw [hs]
    · intro h0
      have hcode := hd.2
      have h1 : det.ResolutionError = {} := h0
      rw [h1] at hcode
      exact absurd hcode (by decide)

/-- Instance of amended C14: a client that answers `(nil, nil)`, the response
being the nil value, on the context of the tests with default true. -/
theorem booleanEvaluation_returns_well_formed_witness :
    ∃ (r : BoolResolutionDetail) (st1 : Unit),
      (Panics.New (some (Panics.stubClient GoValue.nil none))).BooleanEvaluation
          (fun _ => "<nil>") "flag" true testEvalCtx () = some (r, st1) ∧
      r.Value = true ∧ r.Reason = ErrorReason ∧ r.ResolutionError ≠ {} := by
  obtain ⟨r, st1, hres, _, _, hshape⟩ :=
    booleanEvaluation_returns_well_formed (fun _ => "<nil>")
      (some (Panics.stubClient GoValue.nil none)) "flag" true testEvalCtx ()
      (fun s _ => ⟨Panics.stubClient GoValue.nil none, (GoValue.nil, none), (), rfl, rfl,
        fun e he => Option.noConfusion he⟩)
  refine ⟨r, st1, hres, ?_⟩
  rcases hshape with ⟨_, _, _, _, hv, hr, he⟩ | ⟨_, _, _, _, _, _, _, _, _, hv, hr, he⟩ |
    ⟨_, _, _, _, _, _, _, hv, hr, he⟩ | ⟨s, c, b, hx, hc, hcall, _, _, _⟩
  · exact ⟨hv, hr, he⟩
  · exact ⟨hv, hr, he⟩
  · exact ⟨hv, hr, he⟩
  · cases hc
    simp [Panics.stubClient] at hcall

/-! ## The reason of a true response, and error precedence -/

/-- C15, evaluated on the input of the test `trueResponseNoError` (flag "flag",
default false, context with targetingKey "my_distinct_id", client answering
`(true, nil)`): the provider returns value true and the zero error, but the
reason is `TargetingMatchReason`, which differs from the `UnknownReason` that the
test requires. -/
theorem booleanEvaluation_true_response_unknown_refuted (fmtV : GoValue → String) :
    ((New (stubClient (GoValue.bool true) none)).BooleanEvaluation
        fmtV "flag" false testEvalCtx ()).1.Value = true ∧
    ((New (stubClient (GoValue.bool true) none)).BooleanEvaluation
        fmtV "flag" false testEvalCtx ()).1.ResolutionError = {} ∧
    ((New (stubClient (GoValue.bool true) none)).BooleanEvaluation
        fmtV "flag" false testEvalCtx ()).1.Reason = TargetingMatchReason ∧
    ((New (stubClient (GoValue.bool true) none)).BooleanEvaluation
        fmtV "flag" false testEvalCtx ()).1.Reason ≠ UnknownReason := by
  refine ⟨rfl, rfl, rfl, ?_⟩
  show TargetingMatchReason ≠ UnknownReason
  decide

/-- C16: for every flag key, default `d` and context (with pairwise different
keys) that maps targetingKey to a string `s`, if the client call made for
`(flag, s)` returns a non-nil error `err` together with any response `resp`
(a boolean different from `d` included), then the result of `BooleanEvaluation`
is the default `d` with the detail `fromPostHogError err`: reason `ErrorReason`
and the general-code error "posthog client error: " followed by the text of
`err`.  The response does not occur in the result. -/
theorem booleanEvaluation_error_precedence {σ : Type} (fmtV : GoValue → String)
    (p : Provider σ) (flag : String) (d : Bool) (evalCtx : FlattenedContext)
    (s : String) (st : σ) (resp : GoValue) (err : GoError)
    (hk : (evalCtx.map Prod.fst).Nodup) (hs : (DistinctIdKey, GoValue.str s) ∈ evalCtx)
    (hc : (p.client.IsFeatureEnabled { Key := flag, DistinctId := s } st).1
      = (resp, some err)) :
    (p.BooleanEvaluation fmtV flag d evalCtx st).1
      = { Value := d,
          Reason := ErrorReason,
          ResolutionError :=
            NewGeneralResolutionError ("posthog client error: " ++ err.Error) } := by
  have hx := extractDistinctID_string evalCtx s hk hs
  have hcall : p.client.IsFeatureEnabled { Key := flag, DistinctId := s } st
      = ((resp, some err),
         (p.client.IsFeatureEnabled { Key := flag, DistinctId := s } st).2) := by
    rw [← hc]
  rw [BooleanEvaluation_of_error fmtV p flag d evalCtx st s resp err _ hx hcall]
  rfl

/-- Instance of C16: the client answers `(true, err)` and the default is false;
the value of the result is false. -/
theorem booleanEvaluation_error_precedence_witness :
    ((New (stubClient (GoValue.bool true) (some ⟨"timeout"⟩))).BooleanEvaluation
        (fun _ => "") "flag" false testEvalCtx ()).1
      = { Value := false,
          Reason := ErrorReason,
          ResolutionError :=
            NewGeneralResolutionError ("posthog client error: " ++ "timeout") } :=
  booleanEvaluation_error_precedence (fun _ => "")
    (New (stubClient (GoValue.bool true) (some ⟨"timeout"⟩))) "flag" false testEvalCtx
    "my_distinct_id" () (GoValue.bool true) ⟨"timeout"⟩
    (by simp [testEvalCtx]) (by simp [testEvalCtx]) rfl

/-! ## Error codes of the failure classes -/

/-- C17 fails: on concrete inputs, the error codes of a missing-identity result
(empty context), a backend-failure result (client answering `(nil, err)`), a
type-mismatch result (client answering `("hello", nil)`) and a result of
`StringEvaluation` are not pairwise distinct: the second and the fourth are
both the general code. -/
theorem error_codes_not_pairwise_distinct :
    ¬ [((New (stubClient GoValue.nil none)).BooleanEvaluation
          (fun _ => "") "flag" false [] ()).1.ResolutionError.code,
       ((New (stubClient GoValue.nil (some ⟨"no feature flag"⟩))).BooleanEvaluation
          (fun _ => "") "flag" false testEvalCtx ()).1.ResolutionError.code,
       ((New (stubClient (GoValue.str "hello") none)).BooleanEvaluation
          (fun _ => "hello") "flag" false testEvalCtx ()).1.ResolutionError.code,
       ((New (stubClient GoValue.nil none)).StringEvaluation
          "flag" "hello" []).ResolutionError.code].Nodup := by
  decide

/-- C17 as amended: the failure results carry three pairwise distinct error
codes.  A missing-identity result (identity key absent, or present with a value
that is not a string), a backend-failure result and a type-mismatch result of
`BooleanEvaluation` have pairwise different codes; the results of the four stub
evaluations have the same code as a backend-failure result, the general code;
and the message of a backend-failure result differs from each of the four
"not implemented" messages. -/
theorem error_codes_three_classes {σ : Type} (fmtV : GoValue → String) (p : Provider σ)
    (flag : String) (d : Bool) (ctxM ctxS : FlattenedContext) (s : String)
    (stM stE stT : σ) (respE respT : GoValue) (err : GoError)
    (dString : String) (dFloat : Float) (dInt : Int) (dObject : GoValue)
    (hkM : (ctxM.map Prod.fst).Nodup)
    (hM : (∀ e ∈ ctxM, e.1 ≠ DistinctIdKey) ∨
      (∃ v, (DistinctIdKey, v) ∈ ctxM ∧ ∀ t, v ≠ GoValue.str t))
    (hkS : (ctxS.map Prod.fst).Nodup) (hs : (DistinctIdKey, GoValue.str s) ∈ ctxS)
    (hE : (p.client.IsFeatureEnabled { Key := flag, DistinctId := s } stE).1
      = (respE, some err))
    (hT : (p.client.IsFeatureEnabled { Key := flag, DistinctId := s } stT).1
      = (respT, none))
    (hnb : ∀ b, respT ≠ GoValue.bool b) :
    [(p.BooleanEvaluation fmtV flag d ctxM stM).1.ResolutionError.code,
     (p.BooleanEvaluation fmtV flag d ctxS stE).1.ResolutionError.code,
     (p.BooleanEvaluation fmtV flag d ctxS stT).1.ResolutionError.code].Nodup ∧
    (p.BooleanEvaluation fmtV flag d ctxS stE).1.ResolutionError.code = GeneralCode ∧
    (p.StringEvaluation flag dString ctxS).ResolutionError.code
      = (p.BooleanEvaluation fmtV flag d ctxS stE).1.ResolutionError.code ∧
    (p.FloatEvaluation flag dFloat ctxS).ResolutionError.code
      = (p.BooleanEvaluation fmtV flag d ctxS stE).1.ResolutionError.code ∧
    (p.IntEvaluation flag dInt ctxS).ResolutionError.code
      = (p.BooleanEvaluation fmtV flag d ctxS stE).1.ResolutionError.code ∧
    (p.ObjectEvaluation flag dObject ctxS).ResolutionError.code
      = (p.BooleanEvaluation fmtV flag d ctxS stE).1.ResolutionError.code ∧
    (p.BooleanEvaluation fmtV flag d ctxS stE).1.ResolutionError.message
      ≠ (p.StringEvaluation flag dString ctxS).ResolutionError.message ∧
    (p.BooleanEvaluation fmtV flag d ctxS stE).1.ResolutionError.message
      ≠ (p.FloatEvaluation flag dFloat ctxS).ResolutionError.message ∧
    (p.BooleanEvaluation fmtV flag d ctxS stE).1.ResolutionError.message
      ≠ (p.IntEvaluation flag dInt ctxS).ResolutionError.message ∧
    (p.BooleanEvaluation fmtV flag d ctxS stE).1.ResolutionError.message
      ≠ (p.ObjectEvaluation flag dObject ctxS).ResolutionError.message := by
  have hxM : ∃ x det, extractDistinctID ctxM = (x, some det) := by
    rcases hM with habs | ⟨v, hv, hns⟩
    · exact ⟨_, _, extractDistinctID_absent ctxM habs⟩
    · exact ⟨_, _, extractDistinctID_not_string ctxM v hkM hv hns⟩
  obtain ⟨x, det, hxM⟩ := hxM
  have hcM : (p.BooleanEvaluation fmtV flag d ctxM stM).1.ResolutionError.code
      = TargetingKeyMissingCode := by
    rw [BooleanEvaluation_of_detail fmtV p flag d ctxM stM x det hxM]
    exact (extractDistinctID_detail ctxM x det hxM).2
  have hxS := extractDistinctID_string ctxS s hkS hs
  have hcallE : p.client.IsFeatureEnabled { Key := flag, DistinctId := s } stE
      = ((respE, some err),
         (p.client.IsFeatureEnabled { Key := flag, DistinctId := s } stE).2) := by
    rw [← hE]
  have hcallT : p.client.IsFeatureEnabled { Key := flag, DistinctId := s } stT
      = ((respT, none),
         (p.client.IsFeatureEnabled { Key := flag, DistinctId := s } stT).2) := by
    rw [← hT]
  have hmsg : ∀ t : String, t.data.head? ≠ some 'p' →
      "posthog client error: " ++ err.Error ≠ t := by
    intro t ht heq
    apply ht
    rw [← heq, String.data_append]
    rfl
  rw [hcM, BooleanEvaluation_of_error fmtV p flag d ctxS stE s respE err _ hxS hcallE,
    BooleanEvaluation_of_other fmtV p flag d ctxS stT s respT _ hxS hcallT hnb]
  refine ⟨?_, rfl, rfl, rfl, rfl, rfl, ?_, ?_, ?_, ?_⟩
  · show [TargetingKeyMissingCode, GeneralCode, TypeMismatchCode].Nodup
    decide
  · exact hmsg "string evaluation not implemented" (by decide)
  · exact hmsg "float evaluation not implemented" (by decide)
  · exact hmsg "int evaluation not implemented" (by decide)
  · exact hmsg "object evaluation not implemented" (by decide)

/-- Instance of amended C17 on the outcomes of the tests, with a scripted
client: the empty context gives the missing-identity result, the script
`(nil, "no feature flag")` the backend failure and the script `("hello", nil)`
the type mismatch; the three codes are pairwise distinct and the code of the
string stub is the code of the backend failure. -/
theorem error_codes_three_classes_witness :
    [((New scriptedClient).BooleanEvaluation
        (fun _ => "hello") "flag" false [] []).1.ResolutionError.code,
     ((New scriptedClient).BooleanEvaluation
        (fun _ => "hello") "flag" false testEvalCtx
        [(GoValue.nil, some ⟨"no feature flag"⟩)]).1.ResolutionError.code,
     ((New scriptedClient).BooleanEvaluation
        (fun _ => "hello") "flag" false testEvalCtx
        [(GoValue.str "hello", none)]).1.ResolutionError.code].Nodup ∧
    ((New scriptedClient).StringEvaluation "flag" "hello" testEvalCtx).ResolutionError.code
      = ((New scriptedClient).BooleanEvaluation
        (fun _ => "hello") "flag" false testEvalCtx
        [(GoValue.nil, some ⟨"no feature flag"⟩)]).1.ResolutionError.code :=
  (fun h => ⟨h.1, h.2.2.1⟩)
    (error_codes_three_classes (fun _ => "hello") (New scriptedClient) "flag" false
      [] testEvalCtx "my_distinct_id"
      [] [(GoValue.nil, some ⟨"no feature flag"⟩)] [(GoValue.str "hello", none)]
      GoValue.nil (GoValue.str "hello") ⟨"no feature flag"⟩ "hello" 0 0 GoValue.nil
      (by decide) (Or.inl (fun e he => absurd he (List.not_mem_nil e)))
      (by simp [testEvalCtx]) (by simp [testEvalCtx]) rfl rfl
      (fun _ hv => GoValue.noConfusion hv))

/-! ## Dependence on the context -/

/-- C18: for every flag key and default, and any two contexts with pairwise
different keys (in any entry order, with any other attributes) that both lack
the identity key or both map it to the same value, `extractDistinctID` returns
the same identity or detail, `BooleanEvaluation` returns the same result and
final client state for every provider and state, and a recording client logs
the same payloads. -/
theorem booleanEvaluation_depends_on_identity_only (fmtV : GoValue → String)
    (flag : String) (defaultValue : Bool) (c1 c2 : FlattenedContext)
    (hk1 : (c1.map Prod.fst).Nodup) (hk2 : (c2.map Prod.fst).Nodup)
    (h : ((∀ e ∈ c1, e.1 ≠ DistinctIdKey) ∧ (∀ e ∈ c2, e.1 ≠ DistinctIdKey)) ∨
      (∃ v, (DistinctIdKey, v) ∈ c1 ∧ (DistinctIdKey, v) ∈ c2)) :
    extractDistinctID c1 = extractDistinctID c2 ∧
    (∀ (σ : Type) (p : Provider σ) (st : σ),
      p.BooleanEvaluation fmtV flag defaultValue c1 st
        = p.BooleanEvaluation fmtV flag defaultValue c2 st) ∧
    (∀ (σ : Type) (c : Client σ) (st : σ) (log : List FeatureFlagPayload),
      ((New (recordingClient c)).BooleanEvaluation fmtV flag defaultValue c1 (st, log)).2.2
        = ((New (recordingClient c)).BooleanEvaluation fmtV flag defaultValue c2
            (st, log)).2.2) := by
  have hx := extractDistinctID_congr c1 c2 hk1 hk2 h
  refine ⟨hx, ?_, ?_⟩
  · intro σ p st
    exact BooleanEvaluation_congr_ctx fmtV p flag defaultValue c1 c2 st hx
  · intro σ c st log
    rw [BooleanEvaluation_congr_ctx fmtV (New (recordingClient c)) flag defaultValue c1 c2
      (st, log) hx]

/-- Instance of C18: two contexts that hold the identity "u1" at different
positions among different other attributes give the same result and log. -/
theorem booleanEvaluation_depends_on_identity_only_witness :
    (New (recordingClient (stubClient (GoValue.bool true) none))).BooleanEvaluation
        (fun _ => "") "flag" false
        [("plan", GoValue.str "free"), (DistinctIdKey, GoValue.str "u1"),
         ("age", GoValue.int 30)] ((), [])
      = (New (recordingClient (stubClient (GoValue.bool true) none))).BooleanEvaluation
        (fun _ => "") "flag" false
        [(DistinctIdKey, GoValue.str "u1"), ("country", GoValue.str "NL")] ((), []) :=
  (booleanEvaluation_depends_on_identity_only (fun _ => "") "flag" false
    [("plan", GoValue.str "free"), (DistinctIdKey, GoValue.str "u1"), ("age", GoValue.int 30)]
    [(DistinctIdKey, GoValue.str "u1"), ("country", GoValue.str "NL")]
    (by decide) (by decide)
    (Or.inr ⟨GoValue.str "u1", by simp, by simp⟩)).2.1
    (Unit × List FeatureFlagPayload)
    (New (recordingClient (stubClient (GoValue.bool true) none))) ((), [])

/-! ## Reason and error of the boolean result -/

/-- Every result of `BooleanEvaluation` is a success with the zero error or a
failure with reason `ErrorReason`, a populated error and the default value. -/
theorem BooleanEvaluation_success_or_failure {σ : Type} (fmtV : GoValue → String)
    (p : Provider σ) (flag : String) (defaultValue : Bool) (evalCtx : FlattenedContext)
    (st : σ) :
    ((p.BooleanEvaluation fmtV flag defaultValue evalCtx st).1.Reason = TargetingMatchReason ∧
      (p.BooleanEvaluation fmtV flag defaultValue evalCtx st).1.ResolutionError = {}) ∨
    ((p.BooleanEvaluation fmtV flag defaultValue evalCtx st).1.Reason = ErrorReason ∧
      (p.BooleanEvaluation fmtV flag defaultValue evalCtx st).1.ResolutionError ≠ {} ∧
      (p.BooleanEvaluation fmtV flag defaultValue evalCtx st).1.Value = defaultValue) := by
  rcases BooleanEvaluation_cases fmtV p flag defaultValue evalCtx st with
    ⟨x, det, hx, hres⟩ | ⟨s, resp, err, st1, _, _, hres⟩ | ⟨s, b, st1, _, _, hres⟩ |
    ⟨s, resp, st1, _, _, _, hres⟩
  · rw [hres]
    refine Or.inr ⟨(extractDistinctID_detail evalCtx x det hx).1, ?_, rfl⟩
    intro h0
    have hcode := (extractDistinctID_detail evalCtx x det hx).2
    have h1 : det.ResolutionError = {} := h0
    rw [h1] at hcode
    exact absurd hcode (by decide)
  · rw [hres]
    refine Or.inr ⟨rfl, ?_, rfl⟩
    intro h0
    have hcode : GeneralCode = "" := congrArg ResolutionError.code h0
    exact absurd hcode (by decide)
  · rw [hres]
    exact Or.inl ⟨rfl, rfl⟩
  · rw [hres]
    refine Or.inr ⟨rfl, ?_, rfl⟩
    intro h0
    have hcode : TypeMismatchCode = "" := congrArg ResolutionError.code h0
    exact absurd hcode (by decide)

/-- C19: for every provider, client state, flag key, default and context, the
result of `BooleanEvaluation` has reason `ErrorReason` if and only if its
resolution error is not the zero value; its reason is never `DefaultReason`; it
never has reason `ErrorReason` with the zero error, and never a populated error
with a reason other than `ErrorReason`. -/
theorem booleanEvaluation_error_reason_iff_error {σ : Type} (fmtV : GoValue → String)
    (p : Provider σ) (flag : String) (defaultValue : Bool) (evalCtx : FlattenedContext)
    (st : σ) :
    ((p.BooleanEvaluation fmtV flag defaultValue evalCtx st).1.Reason = ErrorReason ↔
      (p.BooleanEvaluation fmtV flag defaultValue evalCtx st).1.ResolutionError ≠ {}) ∧
    (p.BooleanEvaluation fmtV flag defaultValue evalCtx st).1.Reason ≠ DefaultReason ∧
    ¬ ((p.BooleanEvaluation fmtV flag defaultValue evalCtx st).1.Reason = ErrorReason ∧
        (p.BooleanEvaluation fmtV flag defaultValue evalCtx st).1.ResolutionError = {}) ∧
    ¬ ((p.BooleanEvaluation fmtV flag defaultValue evalCtx st).1.ResolutionError ≠ {} ∧
        (p.BooleanEvaluation fmtV flag defaultValue evalCtx st).1.Reason ≠ ErrorReason) := by
  have hTE : TargetingMatchReason ≠ ErrorReason := by decide
  have hTD : TargetingMatchReason ≠ DefaultReason := by decide
  have hED : ErrorReason ≠ DefaultReason := by decide
  rcases BooleanEvaluation_success_or_failure fmtV p flag defaultValue evalCtx st with
    ⟨hr, he⟩ | ⟨hr, he, _⟩
  · rw [hr, he]
    exact ⟨⟨fun h => absurd h hTE, fun h => absurd rfl h⟩, hTD, fun h => hTE h.1,
      fun h => h.1 rfl⟩
  · rw [hr]
    exact ⟨⟨fun _ => he, fun _ => rfl⟩, hED, fun h => he h.2, fun h => h.2 rfl⟩

end Posthog
